import Mathlib

/-!
# Verification of the `jax-fem` tutorial notebooks

This development gives a shallow embedding, in Lean 4 over `Mathlib`, of the
two Jupyter notebooks contained in this repository snapshot:

* the Poisson notebook (`src/unnamed/part_000`), which defines a `Poisson`
  subclass of the external `Problem` base class together with boundary data
  and solves `-∇²u = b` on the unit square, and
* the hyperelasticity notebook
  (`src/docs/source/learn/hyperelasticity.ipynb`), which defines a
  `HyperElasticity` subclass implementing a Neo-Hookean material and solves a
  finite-deformation problem on the unit cube.

Python floating-point numbers are modelled as real numbers, `jax.numpy`
arrays as (functions into) `Fin n → ℝ` or `Matrix (Fin n) (Fin n) ℝ`, and
the external `jax.grad` operator as the exact per-entry derivative.  The
notebook-level structure (which methods each `Problem` subclass overrides,
which functions each notebook defines, and the order of the executable
notebook cells) is embedded as explicit inventories that mirror the source
text cell by cell.
-/

/-- Model of `np.isclose(a, b, atol=atol)` on scalars: `|a - b| ≤ atol + rtol * |b|`
with the `numpy` default relative tolerance `rtol = 1e-5`. -/
def isclose (a b atol : ℝ) : Prop :=
  |a - b| ≤ atol + 1e-5 * |b|

/-- The Dirichlet boundary-condition descriptor passed to the `Problem`
constructor: the Python value `dirichlet_bc_info = [location_fns, vecs, value_fns]`
is a (heterogeneous) list of exactly three parallel lists, embedded here as a
structure whose three fields appear in the source order. -/
structure DirichletBCInfo (d : ℕ) where
  location_fns : List ((Fin d → ℝ) → Prop)
  vecs : List ℕ
  value_fns : List ((Fin d → ℝ) → ℝ)

/-- The three kinds of weak-form kernel callables the spec attributes to a
`Problem` subclass: `get_tensor_map`, `get_mass_map`, `get_surface_maps`. -/
inductive KernelKind where
  | tensorMap
  | massMap
  | surfaceMap
  deriving DecidableEq

namespace Poisson

/-- `Lx, Ly = 1., 1.` from the Poisson notebook's mesh cell. -/
def Lx : ℝ := 1

/-- `Lx, Ly = 1., 1.` from the Poisson notebook's mesh cell. -/
def Ly : ℝ := 1

/-- `Poisson.get_tensor_map` returns `lambda x: x`, acting on solution
gradients of shape `(vec, dim) = (1, 2)`. -/
def get_tensor_map : (Fin 1 → Fin 2 → ℝ) → Fin 1 → Fin 2 → ℝ :=
  fun x => x

/-- The inner function of `Poisson.get_mass_map`:
`val = -np.array([10*np.exp(-(np.power(x[0]-0.5, 2) + np.power(x[1]-0.5, 2)) / 0.02)])`. -/
noncomputable def mass_map (u : Fin 1 → ℝ) (x : Fin 2 → ℝ) : Fin 1 → ℝ :=
  -![10 * Real.exp (-((x 0 - 0.5) ^ 2 + (x 1 - 0.5) ^ 2) / 0.02)]

/-- `Poisson.get_mass_map` returns the function `mass_map`. -/
noncomputable def get_mass_map : (Fin 1 → ℝ) → (Fin 2 → ℝ) → Fin 1 → ℝ :=
  mass_map

/-- The inner function of `Poisson.get_surface_maps`:
`return -np.array([np.sin(5.*x[0])])`. -/
noncomputable def surface_map (u : Fin 1 → ℝ) (x : Fin 2 → ℝ) : Fin 1 → ℝ :=
  -![Real.sin (5 * x 0)]

/-- `Poisson.get_surface_maps` returns `[surface_map, surface_map]`. -/
noncomputable def get_surface_maps :
    List ((Fin 1 → ℝ) → (Fin 2 → ℝ) → Fin 1 → ℝ) :=
  [surface_map, surface_map]

/-- `def left(point): return np.isclose(point[0], 0., atol=1e-5)`. -/
def left (point : Fin 2 → ℝ) : Prop := isclose (point 0) 0 1e-5

/-- `def right(point): return np.isclose(point[0], Lx, atol=1e-5)`. -/
def right (point : Fin 2 → ℝ) : Prop := isclose (point 0) Lx 1e-5

/-- `def bottom(point): return np.isclose(point[1], 0., atol=1e-5)`. -/
def bottom (point : Fin 2 → ℝ) : Prop := isclose (point 1) 0 1e-5

/-- `def top(point): return np.isclose(point[1], Ly, atol=1e-5)`. -/
def top (point : Fin 2 → ℝ) : Prop := isclose (point 1) Ly 1e-5

/-- `def dirichlet_val_left(point): return 0.`. -/
def dirichlet_val_left (point : Fin 2 → ℝ) : ℝ := 0

/-- `def dirichlet_val_right(point): return 0.`. -/
def dirichlet_val_right (point : Fin 2 → ℝ) : ℝ := 0

/-- `location_fns_dirichlet = [left, right]`. -/
def location_fns_dirichlet : List ((Fin 2 → ℝ) → Prop) := [left, right]

/-- `value_fns = [dirichlet_val_left, dirichlet_val_right]`. -/
def value_fns : List ((Fin 2 → ℝ) → ℝ) := [dirichlet_val_left, dirichlet_val_right]

/-- `vecs = [0, 0]`. -/
def vecs : List ℕ := [0, 0]

/-- `dirichlet_bc_info = [location_fns_dirichlet, vecs, value_fns]`. -/
def dirichlet_bc_info : DirichletBCInfo 2 :=
  ⟨location_fns_dirichlet, vecs, value_fns⟩

/-- `location_fns = [bottom, top]` — Neumann boundary locations. -/
def location_fns : List ((Fin 2 → ℝ) → Prop) := [bottom, top]

/-- The `vec=1` argument of the `Poisson(...)` constructor call. -/
def problem_vec : ℕ := 1

/-- The `dim=2` argument of the `Poisson(...)` constructor call. -/
def problem_dim : ℕ := 2

/-- The `Problem` methods the `class Poisson` body overrides:
`get_tensor_map`, `get_mass_map` and `get_surface_maps`. -/
def overridden_kernels : List KernelKind :=
  [KernelKind.tensorMap, KernelKind.massMap, KernelKind.surfaceMap]

end Poisson

namespace HyperElasticity

/-- `Lx, Ly, Lz = 1., 1., 1.` from the hyperelasticity notebook's mesh cell. -/
def Lx : ℝ := 1

/-- `Lx, Ly, Lz = 1., 1., 1.` from the hyperelasticity notebook's mesh cell. -/
def Ly : ℝ := 1

/-- `Lx, Ly, Lz = 1., 1., 1.` from the hyperelasticity notebook's mesh cell. -/
def Lz : ℝ := 1

/-- The `dim=3` argument of the `HyperElasticity(...)` constructor call. -/
def problem_dim : ℕ := 3

/-- The `vec=3` argument of the `HyperElasticity(...)` constructor call. -/
def problem_vec : ℕ := 3

/-- The Neo-Hookean strain energy density `psi` from
`HyperElasticity.get_tensor_map`, with `E = 10.`, `nu = 0.3`,
`mu = E/(2*(1+nu))`, `kappa = E/(3*(1-2*nu))`, `J = det F`,
`Jinv = J**(-2/3)`, `I1 = trace(Fᵀ F)` and
`energy = (mu/2)*(Jinv*I1 - 3) + (kappa/2)*(J-1)**2`. -/
noncomputable def psi (F : Matrix (Fin 3) (Fin 3) ℝ) : ℝ :=
  let E : ℝ := 10
  let nu : ℝ := 0.3
  let mu : ℝ := E / (2 * (1 + nu))
  let kappa : ℝ := E / (3 * (1 - 2 * nu))
  let J : ℝ := F.det
  let Jinv : ℝ := J ^ (-2 / 3 : ℝ)
  let I1 : ℝ := (F.transpose * F).trace
  mu / 2 * (Jinv * I1 - 3) + kappa / 2 * (J - 1) ^ 2

/-- Model of the external `jax.grad` operator on scalar functions of a
`3 × 3` matrix: the matrix of partial derivatives, each entry being the
derivative along the corresponding standard basis direction. -/
noncomputable def jaxGrad (f : Matrix (Fin 3) (Fin 3) ℝ → ℝ)
    (X : Matrix (Fin 3) (Fin 3) ℝ) : Matrix (Fin 3) (Fin 3) ℝ :=
  Matrix.of fun i j =>
    deriv (fun t : ℝ => f (X + t • Matrix.stdBasisMatrix i j 1)) 0

/-- `P_fn = jax.grad(psi)` from `HyperElasticity.get_tensor_map`. -/
noncomputable def P_fn : Matrix (Fin 3) (Fin 3) ℝ → Matrix (Fin 3) (Fin 3) ℝ :=
  jaxGrad psi

/-- `first_PK_stress(u_grad)`: `F = u_grad + np.eye(self.dim)` (here
`self.dim = 3`, so the identity matrix `1`) and `P = P_fn(F)`. -/
noncomputable def first_PK_stress
    (u_grad : Matrix (Fin 3) (Fin 3) ℝ) : Matrix (Fin 3) (Fin 3) ℝ :=
  P_fn (u_grad + 1)

/-- `HyperElasticity.get_tensor_map` with the differentiation operator left
as an explicit parameter: the body applies the operator to `psi` and shifts
the argument by the identity, and performs no differentiation of its own. -/
noncomputable def get_tensor_map_with
    (gradOp : (Matrix (Fin 3) (Fin 3) ℝ → ℝ) →
      Matrix (Fin 3) (Fin 3) ℝ → Matrix (Fin 3) (Fin 3) ℝ) :
    Matrix (Fin 3) (Fin 3) ℝ → Matrix (Fin 3) (Fin 3) ℝ :=
  fun u_grad => gradOp psi (u_grad + 1)

/-- `def left(point): return np.isclose(point[0], 0., atol=1e-5)`. -/
def left (point : Fin 3 → ℝ) : Prop := isclose (point 0) 0 1e-5

/-- `def right(point): return np.isclose(point[0], Lx, atol=1e-5)`. -/
def right (point : Fin 3 → ℝ) : Prop := isclose (point 0) Lx 1e-5

/-- `def zero_dirichlet_val(point): return 0.`. -/
def zero_dirichlet_val (point : Fin 3 → ℝ) : ℝ := 0

/-- `def dirichlet_val_x2(point)` from the hyperelasticity notebook. -/
noncomputable def dirichlet_val_x2 (point : Fin 3 → ℝ) : ℝ :=
  (0.5 + (point 1 - 0.5) * Real.cos (Real.pi / 3) -
      (point 2 - 0.5) * Real.sin (Real.pi / 3) - point 1) / 2

/-- `def dirichlet_val_x3(point)` from the hyperelasticity notebook. -/
noncomputable def dirichlet_val_x3 (point : Fin 3 → ℝ) : ℝ :=
  (0.5 + (point 1 - 0.5) * Real.sin (Real.pi / 3) +
      (point 2 - 0.5) * Real.cos (Real.pi / 3) - point 2) / 2

/-- `dirichlet_bc_info = [[left]*3 + [right]*3, [0, 1, 2]*2,
[zero_dirichlet_val, dirichlet_val_x2, dirichlet_val_x3] + [zero_dirichlet_val]*3]`. -/
noncomputable def dirichlet_bc_info : DirichletBCInfo 3 :=
  ⟨List.replicate 3 left ++ List.replicate 3 right,
    [0, 1, 2] ++ [0, 1, 2],
    [zero_dirichlet_val, dirichlet_val_x2, dirichlet_val_x3] ++
      List.replicate 3 zero_dirichlet_val⟩

/-- The `Problem` methods the `class HyperElasticity` body overrides:
only `get_tensor_map`. -/
def overridden_kernels : List KernelKind :=
  [KernelKind.tensorMap]

end HyperElasticity

/-- The override inventories of the two `Problem` subclasses defined in this
repository, in source order: `Poisson`, then `HyperElasticity`. -/
def problem_subclasses : List (List KernelKind) :=
  [Poisson.overridden_kernels, HyperElasticity.overridden_kernels]

/-- One function definition appearing in a notebook, with flags recording
whether its body contains a `raise` statement, a `try`/`except` handler, or a
conditional branching on an error condition. -/
structure NotebookFunctionDecl where
  name : String
  raisesError : Bool
  catchesError : Bool
  branchesOnError : Bool

/-- The function definitions of the Poisson notebook, in source order.  None
of their bodies contains `raise`, `try`/`except`, or a branch on an error
condition (the bodies contain no conditional at all). -/
def poisson_defined_functions : List NotebookFunctionDecl :=
  [⟨"Poisson.get_tensor_map", false, false, false⟩,
    ⟨"Poisson.get_mass_map", false, false, false⟩,
    ⟨"mass_map", false, false, false⟩,
    ⟨"Poisson.get_surface_maps", false, false, false⟩,
    ⟨"surface_map", false, false, false⟩,
    ⟨"left", false, false, false⟩,
    ⟨"right", false, false, false⟩,
    ⟨"bottom", false, false, false⟩,
    ⟨"top", false, false, false⟩,
    ⟨"dirichlet_val_left", false, false, false⟩,
    ⟨"dirichlet_val_right", false, false, false⟩]

/-- The function definitions of the hyperelasticity notebook, in source
order.  None of their bodies contains `raise`, `try`/`except`, or a branch on
an error condition. -/
def hyperelasticity_defined_functions : List NotebookFunctionDecl :=
  [⟨"HyperElasticity.get_tensor_map", false, false, false⟩,
    ⟨"psi", false, false, false⟩,
    ⟨"first_PK_stress", false, false, false⟩,
    ⟨"left", false, false, false⟩,
    ⟨"right", false, false, false⟩,
    ⟨"zero_dirichlet_val", false, false, false⟩,
    ⟨"dirichlet_val_x2", false, false, false⟩,
    ⟨"dirichlet_val_x3", false, false, false⟩]

/-- Every function definition appearing in either notebook. -/
def notebook_defined_functions : List NotebookFunctionDecl :=
  poisson_defined_functions ++ hyperelasticity_defined_functions

/-- The kinds of step a notebook's executable code cells perform. -/
inductive NotebookStep where
  | importLibrary
  | defineWeakFormKernels
  | constructMesh
  | defineBoundaryCallbacks
  | instantiateProblem
  | callSolver
  | postprocessSolution
  deriving DecidableEq, BEq

/-- The executable code cells of the Poisson notebook, in source order:
imports; the `class Poisson` kernel definitions; the mesh-construction cell;
the Dirichlet boundary location/value definitions and `dirichlet_bc_info`;
the Neumann `location_fns` cell; the `Poisson(...)` instantiation;
`sol = solver(problem)`; and the `save_sol` postprocessing cell.  (The cell
holding only commented-out solver options contains no executable code.) -/
def poisson_notebook_steps : List NotebookStep :=
  [NotebookStep.importLibrary,
    NotebookStep.defineWeakFormKernels,
    NotebookStep.constructMesh,
    NotebookStep.defineBoundaryCallbacks,
    NotebookStep.defineBoundaryCallbacks,
    NotebookStep.instantiateProblem,
    NotebookStep.callSolver,
    NotebookStep.postprocessSolution]

/-- The executable code cells of the hyperelasticity notebook, in source
order: imports; the `class HyperElasticity` kernel definition; the
mesh-construction cell; the Dirichlet boundary definitions and
`dirichlet_bc_info`; the `HyperElasticity(...)` instantiation;
`sol_list = solver(problem, ...)`; and the `save_sol` cell. -/
def hyperelasticity_notebook_steps : List NotebookStep :=
  [NotebookStep.importLibrary,
    NotebookStep.defineWeakFormKernels,
    NotebookStep.constructMesh,
    NotebookStep.defineBoundaryCallbacks,
    NotebookStep.instantiateProblem,
    NotebookStep.callSolver,
    NotebookStep.postprocessSolution]

/-- A step that defines callback functions (weak-form kernels or boundary
location/value functions). -/
def isCallbackStep (s : NotebookStep) : Bool :=
  s == NotebookStep.defineWeakFormKernels ||
    s == NotebookStep.defineBoundaryCallbacks

/-- The steps enumerated by the spec sentence (everything except the
postprocessing step, which the sentence does not mention). -/
def isEnumeratedStep (s : NotebookStep) : Bool :=
  !(s == NotebookStep.postprocessSolution)

/-- The step order asserted by the claim: first the import, then all
callback definitions, then mesh construction, then exactly one `Problem`
instantiation, and finally the `solver()` call. -/
def claimed_step_order (l : List NotebookStep) : Bool :=
  match l.filter isEnumeratedStep with
  | NotebookStep.importLibrary :: rest =>
    let cbs := rest.takeWhile isCallbackStep
    rest.drop cbs.length ==
      [NotebookStep.constructMesh, NotebookStep.instantiateProblem,
        NotebookStep.callSolver]
  | _ => false

/-- The step order the notebooks actually follow: the import, then the
weak-form kernel definitions, then mesh construction, then the boundary
callback definitions, then exactly one `Problem` instantiation, and finally
the `solver()` call. -/
def actual_step_order (l : List NotebookStep) : Bool :=
  match l.filter isEnumeratedStep with
  | NotebookStep.importLibrary :: rest =>
    let kernels := rest.takeWhile fun s => s == NotebookStep.defineWeakFormKernels
    match rest.drop kernels.length with
    | NotebookStep.constructMesh :: rest2 =>
      let cbs := rest2.takeWhile fun s => s == NotebookStep.defineBoundaryCallbacks
      decide (0 < kernels.length) && decide (0 < cbs.length) &&
        rest2.drop cbs.length ==
          [NotebookStep.instantiateProblem, NotebookStep.callSolver]
    | _ => false
  | _ => false

/-! ## Supporting lemmas for the Neo-Hookean material -/

lemma stdBasisMatrix_transpose_eq (i j : Fin 3) (c : ℝ) :
    (Matrix.stdBasisMatrix i j c).transpose = Matrix.stdBasisMatrix j i c := by
  ext a b
  simp [Matrix.stdBasisMatrix, Matrix.transpose_apply, and_comm]

lemma det_one_add_stdBasisMatrix_diag (i : Fin 3) (t : ℝ) :
    (1 + Matrix.stdBasisMatrix i i t).det = 1 + t := by
  have h : (1 + Matrix.stdBasisMatrix i i t) =
      Matrix.diagonal (fun k => if i = k then 1 + t else 1) := by
    ext a b
    by_cases hab : a = b
    · subst hab
      by_cases hia : i = a <;>
        simp [Matrix.add_apply, Matrix.one_apply, Matrix.stdBasisMatrix,
          Matrix.diagonal, Matrix.of_apply, hia]
    · have hne : ¬(i = a ∧ i = b) := by
        rintro ⟨rfl, rfl⟩
        exact hab rfl
      simp [Matrix.add_apply, Matrix.one_apply, Matrix.stdBasisMatrix,
        Matrix.diagonal, Matrix.of_apply, hab, hne]
  rw [h, Matrix.det_diagonal]
  simp

lemma det_one_add_stdBasisMatrix_offdiag {i j : Fin 3} (h : i ≠ j) (t : ℝ) :
    (1 + Matrix.stdBasisMatrix i j t).det = 1 := by
  have hdet := Matrix.det_transvection_of_ne i j h t
  simpa [Matrix.transvection] using hdet

lemma trace_FtF_diag (i : Fin 3) (t : ℝ) :
    ((1 + Matrix.stdBasisMatrix i i t).transpose *
        (1 + Matrix.stdBasisMatrix i i t)).trace = 3 + 2 * t + t ^ 2 := by
  rw [Matrix.transpose_add, Matrix.transpose_one, stdBasisMatrix_transpose_eq]
  rw [add_mul, one_mul, mul_add, mul_one, Matrix.StdBasisMatrix.mul_same]
  rw [Matrix.trace_add, Matrix.trace_add, Matrix.trace_add, Matrix.trace_one,
    Matrix.StdBasisMatrix.trace_eq, Matrix.StdBasisMatrix.trace_eq]
  simp [Fintype.card_fin]
  ring

lemma trace_FtF_offdiag {i j : Fin 3} (h : i ≠ j) (t : ℝ) :
    ((1 + Matrix.stdBasisMatrix i j t).transpose *
        (1 + Matrix.stdBasisMatrix i j t)).trace = 3 + t ^ 2 := by
  rw [Matrix.transpose_add, Matrix.transpose_one, stdBasisMatrix_transpose_eq]
  rw [add_mul, one_mul, mul_add, mul_one, Matrix.StdBasisMatrix.mul_same]
  rw [Matrix.trace_add, Matrix.trace_add, Matrix.trace_add, Matrix.trace_one,
    Matrix.StdBasisMatrix.trace_zero _ _ _ h.symm,
    Matrix.StdBasisMatrix.trace_zero _ _ _ h,
    Matrix.StdBasisMatrix.trace_eq]
  simp [Fintype.card_fin]
  ring

lemma hasDerivAt_neo_hookean_diag (c₁ c₂ : ℝ) :
    HasDerivAt (fun t : ℝ =>
      c₁ * ((1 + t) ^ (-2 / 3 : ℝ) * (3 + 2 * t + t ^ 2) - 3) +
        c₂ * ((1 + t) - 1) ^ 2) 0 0 := by
  have h1 : HasDerivAt (fun t : ℝ => 1 + t) 1 0 :=
    HasDerivAt.const_add (1 : ℝ) (hasDerivAt_id' (x := (0 : ℝ)))
  have h2 : HasDerivAt (fun t : ℝ => (1 + t) ^ (-2 / 3 : ℝ))
      (1 * (-2 / 3 : ℝ) * (1 + (0 : ℝ)) ^ ((-2 / 3 : ℝ) - 1)) 0 :=
    h1.rpow_const (Or.inl (by norm_num))
  have h3 : HasDerivAt (fun t : ℝ => 3 + 2 * t + t ^ 2) 2 0 := by
    have ha := (hasDerivAt_const (0 : ℝ) (3 : ℝ)).add
      (HasDerivAt.const_mul (2 : ℝ) (hasDerivAt_id' (x := (0 : ℝ))))
    have hb := hasDerivAt_pow 2 (0 : ℝ)
    have hab := ha.add hb
    convert hab using 1
    norm_num
  have h4 := h2.mul h3
  have h5 := (h4.sub_const (3 : ℝ)).const_mul c₁
  have h6 := ((h1.sub_const (1 : ℝ)).pow (n := 2)).const_mul c₂
  have h7 := h5.add h6
  convert h7 using 1
  norm_num [Real.one_rpow]

lemma deriv_neo_hookean_diag (c₁ c₂ : ℝ) :
    deriv (fun t : ℝ =>
      c₁ * ((1 + t) ^ (-2 / 3 : ℝ) * (3 + 2 * t + t ^ 2) - 3) +
        c₂ * ((1 + t) - 1) ^ 2) 0 = 0 :=
  (hasDerivAt_neo_hookean_diag c₁ c₂).deriv

lemma deriv_neo_hookean_offdiag (c₁ c₂ : ℝ) :
    deriv (fun t : ℝ =>
      c₁ * ((1 : ℝ) ^ (-2 / 3 : ℝ) * (3 + t ^ 2) - 3) +
        c₂ * ((1 : ℝ) - 1) ^ 2) 0 = 0 := by
  have hfun : (fun t : ℝ =>
      c₁ * ((1 : ℝ) ^ (-2 / 3 : ℝ) * (3 + t ^ 2) - 3) +
        c₂ * ((1 : ℝ) - 1) ^ 2) = fun t : ℝ => c₁ * t ^ 2 := by
    funext t
    rw [Real.one_rpow]
    ring
  rw [hfun]
  have H := (hasDerivAt_pow 2 (0 : ℝ)).const_mul c₁
  rw [H.deriv]
  norm_num

lemma deriv_psi_diag (i : Fin 3) :
    deriv (fun t : ℝ =>
      HyperElasticity.psi (1 + t • Matrix.stdBasisMatrix i i 1)) 0 = 0 := by
  have hfun : (fun t : ℝ =>
      HyperElasticity.psi (1 + t • Matrix.stdBasisMatrix i i 1)) =
      fun t : ℝ =>
        (10 : ℝ) / (2 * (1 + 0.3)) / 2 *
            ((1 + t) ^ (-2 / 3 : ℝ) * (3 + 2 * t + t ^ 2) - 3) +
          (10 : ℝ) / (3 * (1 - 2 * 0.3)) / 2 * ((1 + t) - 1) ^ 2 := by
    funext t
    have hsm : t • Matrix.stdBasisMatrix i i (1 : ℝ) =
        Matrix.stdBasisMatrix i i t := by
      rw [Matrix.smul_stdBasisMatrix, smul_eq_mul, mul_one]
    rw [hsm]
    simp only [HyperElasticity.psi]
    rw [det_one_add_stdBasisMatrix_diag, trace_FtF_diag]
  rw [hfun]
  exact deriv_neo_hookean_diag _ _

lemma deriv_psi_offdiag {i j : Fin 3} (h : i ≠ j) :
    deriv (fun t : ℝ =>
      HyperElasticity.psi (1 + t • Matrix.stdBasisMatrix i j 1)) 0 = 0 := by
  have hfun : (fun t : ℝ =>
      HyperElasticity.psi (1 + t • Matrix.stdBasisMatrix i j 1)) =
      fun t : ℝ =>
        (10 : ℝ) / (2 * (1 + 0.3)) / 2 *
            ((1 : ℝ) ^ (-2 / 3 : ℝ) * (3 + t ^ 2) - 3) +
          (10 : ℝ) / (3 * (1 - 2 * 0.3)) / 2 * ((1 : ℝ) - 1) ^ 2 := by
    funext t
    have hsm : t • Matrix.stdBasisMatrix i j (1 : ℝ) =
        Matrix.stdBasisMatrix i j t := by
      rw [Matrix.smul_stdBasisMatrix, smul_eq_mul, mul_one]
    rw [hsm]
    simp only [HyperElasticity.psi]
    rw [det_one_add_stdBasisMatrix_offdiag h, trace_FtF_offdiag h]
  rw [hfun]
  exact deriv_neo_hookean_offdiag _ _

lemma jaxGrad_psi_one : HyperElasticity.jaxGrad HyperElasticity.psi 1 = 0 := by
  ext i j
  simp only [HyperElasticity.jaxGrad, Matrix.of_apply, Matrix.zero_apply]
  by_cases h : i = j
  · subst h
    exact deriv_psi_diag i
  · exact deriv_psi_offdiag h

/-! ## Claim theorems -/

/-- C1: the callable returned by `Poisson.get_tensor_map` is the identity
function — for every input gradient `g` it returns `g` itself, so the flux
term of the Poisson weak form is exactly the solution gradient. -/
theorem poisson_tensor_map_is_identity :
    ∀ g : Fin 1 → Fin 2 → ℝ, Poisson.get_tensor_map g = g :=
  fun _ => rfl

/-- C2: all differentiation of the constitutive law is delegated to the
external differentiation operator (`jax.grad`).  The hyperelastic tensor
map, parameterised over an arbitrary gradient operator, merely applies that
operator to `psi` and shifts its argument by the identity; any two operators
agreeing on `psi` yield the same tensor map; and the notebook's
`first_PK_stress` is exactly the instance at the external operator. -/
theorem constitutive_differentiation_is_external :
    (∀ gradOp u_grad, HyperElasticity.get_tensor_map_with gradOp u_grad =
      gradOp HyperElasticity.psi (u_grad + 1)) ∧
    (∀ gradOp₁ gradOp₂,
      gradOp₁ HyperElasticity.psi = gradOp₂ HyperElasticity.psi →
      HyperElasticity.get_tensor_map_with gradOp₁ =
        HyperElasticity.get_tensor_map_with gradOp₂) ∧
    HyperElasticity.first_PK_stress =
      HyperElasticity.get_tensor_map_with HyperElasticity.jaxGrad := by
  refine ⟨fun _ _ => rfl, fun g₁ g₂ h => ?_, rfl⟩
  funext u
  simp only [HyperElasticity.get_tensor_map_with, h]

/-- Witness for the hypothesis of `constitutive_differentiation_is_external`
at a concrete pair of gradient operators. -/
theorem constitutive_differentiation_is_external_witness :
    HyperElasticity.get_tensor_map_with
        (fun f X => HyperElasticity.jaxGrad f X) =
      HyperElasticity.get_tensor_map_with HyperElasticity.jaxGrad :=
  constitutive_differentiation_is_external.2.1 _ _ rfl

/-- C3 counterexample: `HyperElasticity` is a `Problem` subclass defined in
this repository whose class body overrides neither a mass map nor a surface
map — only the tensor map — so not every subclass overrides all three kinds
of callables. -/
theorem hyperelasticity_lacks_mass_and_surface_maps :
    HyperElasticity.overridden_kernels ∈ problem_subclasses ∧
    decide (KernelKind.massMap ∈ HyperElasticity.overridden_kernels) = false ∧
    decide (KernelKind.surfaceMap ∈ HyperElasticity.overridden_kernels) = false :=
  ⟨by decide, rfl, rfl⟩

/-- C3 (amended): every `Problem` subclass defined in this repository
overrides the tensor map; `Poisson` overrides all three kernel kinds
(tensor map, mass map, surface map), while `HyperElasticity` overrides only
the tensor map. -/
theorem subclasses_override_kernels :
    (problem_subclasses.all fun o => decide (KernelKind.tensorMap ∈ o)) = true ∧
    decide (KernelKind.massMap ∈ Poisson.overridden_kernels) = true ∧
    decide (KernelKind.surfaceMap ∈ Poisson.overridden_kernels) = true ∧
    decide (HyperElasticity.overridden_kernels = [KernelKind.tensorMap]) = true :=
  ⟨rfl, rfl, rfl, rfl⟩

/-- C4: in both notebooks the Dirichlet boundary-condition descriptor's
three parallel lists — location predicates, constrained component indices,
and value functions, in that order — have pairwise equal lengths, and every
constrained component index is below the `vec` passed to the `Problem`
constructor (`vec = 1` for `Poisson`, `vec = 3` for `HyperElasticity`). -/
theorem dirichlet_bc_info_wellformed :
    Poisson.dirichlet_bc_info.location_fns.length =
      Poisson.dirichlet_bc_info.vecs.length ∧
    Poisson.dirichlet_bc_info.vecs.length =
      Poisson.dirichlet_bc_info.value_fns.length ∧
    (Poisson.dirichlet_bc_info.vecs.all fun i =>
      decide (i < Poisson.problem_vec)) = true ∧
    HyperElasticity.dirichlet_bc_info.location_fns.length =
      HyperElasticity.dirichlet_bc_info.vecs.length ∧
    HyperElasticity.dirichlet_bc_info.vecs.length =
      HyperElasticity.dirichlet_bc_info.value_fns.length ∧
    (HyperElasticity.dirichlet_bc_info.vecs.all fun i =>
      decide (i < HyperElasticity.problem_vec)) = true :=
  ⟨rfl, rfl, rfl, rfl, rfl, rfl⟩

/-- C5: every kernel callable defined in the notebooks (`Poisson`'s tensor
map, mass map and surface map; `HyperElasticity`'s first Piola-Kirchhoff
stress map) is deterministic: two evaluations on equal inputs return equal
results.  Each kernel is embedded above as a closed function of its
arguments alone, which is the shallow-embedding rendering of reading and
writing no outside state. -/
theorem kernel_callables_are_pure :
    (∀ g g' : Fin 1 → Fin 2 → ℝ, g = g' →
      Poisson.get_tensor_map g = Poisson.get_tensor_map g') ∧
    (∀ (u u' : Fin 1 → ℝ) (x x' : Fin 2 → ℝ), u = u' → x = x' →
      Poisson.mass_map u x = Poisson.mass_map u' x') ∧
    (∀ (u u' : Fin 1 → ℝ) (x x' : Fin 2 → ℝ), u = u' → x = x' →
      Poisson.surface_map u x = Poisson.surface_map u' x') ∧
    (∀ g g' : Matrix (Fin 3) (Fin 3) ℝ, g = g' →
      HyperElasticity.first_PK_stress g = HyperElasticity.first_PK_stress g') := by
  refine ⟨?_, ?_, ?_, ?_⟩ <;> intros <;> subst_vars <;> rfl

/-- Witness for `kernel_callables_are_pure` at concrete inputs. -/
theorem kernel_callables_are_pure_witness :
    Poisson.mass_map ![0] ![0, 0] = Poisson.mass_map ![0] ![0, 0] :=
  kernel_callables_are_pure.2.1 ![0] ![0] ![0, 0] ![0, 0] rfl rfl

/-- C6: no function defined in either notebook raises, catches, or branches
on an error — every entry of the cell-by-cell function inventory has all
three error-handling flags `false` (each such function is moreover embedded
above as a total Lean function on its whole input domain). -/
theorem no_error_handling_in_notebooks :
    (notebook_defined_functions.all fun f =>
      !f.raisesError && !f.catchesError && !f.branchesOnError) = true :=
  rfl

/-- C7 counterexample: in both notebooks the mesh-construction cell precedes
the cells defining the boundary-location and boundary-value callbacks, so
the claimed order (import, all callback definitions, mesh, problem, solver)
holds of neither notebook's cell sequence. -/
theorem notebook_step_order_counterexample :
    claimed_step_order poisson_notebook_steps = false ∧
    claimed_step_order hyperelasticity_notebook_steps = false :=
  ⟨rfl, rfl⟩

/-- C7 (amended): each notebook imports the library first, then defines the
weak-form kernels, then constructs the mesh, then defines the boundary
callbacks, then instantiates its `Problem` subclass exactly once, and
finally calls `solver()` on that instance (only postprocessing follows). -/
theorem notebook_step_order_actual :
    actual_step_order poisson_notebook_steps = true ∧
    actual_step_order hyperelasticity_notebook_steps = true ∧
    poisson_notebook_steps.count NotebookStep.instantiateProblem = 1 ∧
    hyperelasticity_notebook_steps.count NotebookStep.instantiateProblem = 1 :=
  ⟨rfl, rfl, rfl, rfl⟩

/-- C8: the reference configuration of the Neo-Hookean model is stress-free:
the strain energy `psi` vanishes at the identity deformation gradient, and
`first_PK_stress` maps the zero displacement gradient to the zero matrix. -/
theorem neo_hookean_reference_state_stress_free :
    HyperElasticity.psi 1 = 0 ∧ HyperElasticity.first_PK_stress 0 = 0 := by
  constructor
  · simp only [HyperElasticity.psi, Matrix.det_one, Matrix.transpose_one,
      one_mul, Matrix.trace_one, Fintype.card_fin, Real.one_rpow]
    norm_num
  · have h := jaxGrad_psi_one
    simp only [HyperElasticity.first_PK_stress, HyperElasticity.P_fn, zero_add]
    exact h

/-- C9: the Poisson mass map and surface map ignore their solution argument:
for all solution values `u₁, u₂` and every position `x` they return the same
result, so the source and traction terms depend on position only. -/
theorem poisson_source_terms_ignore_solution :
    ∀ (u₁ u₂ : Fin 1 → ℝ) (x : Fin 2 → ℝ),
      Poisson.mass_map u₁ x = Poisson.mass_map u₂ x ∧
      Poisson.surface_map u₁ x = Poisson.surface_map u₂ x :=
  fun _ _ _ => ⟨rfl, rfl⟩

/-- C10: `Poisson.get_surface_maps` is a list of exactly two entries, both
equal to the single `surface_map` function, and its length equals the length
of the Neumann `location_fns = [bottom, top]` list, pairing one surface map
with each Neumann boundary side. -/
theorem poisson_surface_maps_match_neumann_sides :
    Poisson.get_surface_maps.length = 2 ∧
    Poisson.get_surface_maps.get ⟨0, by decide⟩ = Poisson.surface_map ∧
    Poisson.get_surface_maps.get ⟨1, by decide⟩ = Poisson.surface_map ∧
    Poisson.get_surface_maps.length = Poisson.location_fns.length :=
  ⟨rfl, rfl, rfl, rfl⟩
